import Mathlib

/-!
Shallow embedding of the Luna-Social recommendation engine
(`src/backend.py`, class `RecommendationEngine` plus the parts of
`LunaDatabase` it reads), with theorems settling the spec claims.

Conventions of the embedding:
* Python floats are modelled as exact rationals (`ℚ`); float literals such
  as `0.3` become `3/10`.
* Python dicts keyed by strings are modelled as insertion-ordered
  association lists (`Dict α`), with `dictSet` reproducing `d[k] = v`
  (update in place, append at the end for a fresh key) and `dictGet`
  reproducing `d.get(k, default)`.
* The transcendental functions of Python's `math` module used by
  `calculate_distance` (sin, cos, sqrt, asin, pi) are abstracted as the
  fields of a `TrigModel`; theorems that depend on analytic facts about
  them (oddness of sin, non-negativity of sqrt/asin) take those facts as
  explicit hypotheses, which hold for the real functions.
* Python exceptions are modelled with `Except PyError`; dereferencing
  `None` (e.g. `user.location` when `get_user` returned `None`) is
  `PyError.attributeError`.
* The SQLite store is modelled as in-memory lists (`DB`); each query
  method of `LunaDatabase` becomes a pure function over them.
-/

namespace Luna

/-- `VenueCategory` enum of `backend.py`. -/
inductive VenueCategory where
  | cafe | restaurant | nightlife | hiking | art | movie | park | beach | shopping | gym
  deriving DecidableEq, Repr

/-- `VenueCategory.value`: the string value of each enum member. -/
def VenueCategory.value : VenueCategory → String
  | .cafe => "Café"
  | .restaurant => "Restaurant"
  | .nightlife => "Nightlife"
  | .hiking => "Hiking"
  | .art => "Art Gallery"
  | .movie => "Movie Theater"
  | .park => "Park"
  | .beach => "Beach"
  | .shopping => "Shopping"
  | .gym => "Gym"

/-- `InteractionType` enum of `backend.py`. -/
inductive InteractionType where
  | view | like | comment | save | click | visit
  deriving DecidableEq, Repr

/-- `User` dataclass (the fields read by the recommendation engine). -/
structure User where
  user_id : String
  location : ℚ × ℚ
  interests : List String
  blocked_users : List String
  deriving DecidableEq, Repr

/-- `Venue` dataclass (the fields read by the recommendation engine). -/
structure Venue where
  venue_id : String
  name : String
  category : VenueCategory
  location : ℚ × ℚ
  description : String
  rating : ℚ
  capacity : ℚ
  trending_score : ℚ
  deriving DecidableEq, Repr

/-- `Interaction` dataclass (the fields read by the recommendation engine). -/
structure Interaction where
  interaction_id : String
  user_id : String
  venue_id : String
  interaction_type : InteractionType
  duration_seconds : ℤ
  deriving DecidableEq, Repr

/-- `Booking` dataclass (the fields read by the recommendation engine). -/
structure Booking where
  booking_id : String
  user_id : String
  venue_id : String
  deriving DecidableEq, Repr

/-- In-memory model of the SQLite tables read by `RecommendationEngine`. -/
structure DB where
  users : List User
  venues : List Venue
  interactions : List Interaction
  bookings : List Booking

/-- `LunaDatabase.get_user`: `SELECT * FROM users WHERE user_id = ?` (first row or `None`). -/
def DB.getUser (db : DB) (user_id : String) : Option User :=
  db.users.find? (fun u => u.user_id == user_id)

/-- `LunaDatabase.get_venue`: `SELECT * FROM venues WHERE venue_id = ?` (first row or `None`). -/
def DB.getVenue (db : DB) (venue_id : String) : Option Venue :=
  db.venues.find? (fun v => v.venue_id == venue_id)

/-- `LunaDatabase.get_all_venues`: `SELECT * FROM venues`. -/
def DB.getAllVenues (db : DB) : List Venue := db.venues

/-- `LunaDatabase.get_user_interactions`: `SELECT * FROM interactions WHERE user_id = ?`. -/
def DB.getUserInteractions (db : DB) (user_id : String) : List Interaction :=
  db.interactions.filter (fun i => i.user_id == user_id)

/-- `LunaDatabase.get_user_bookings`: `SELECT * FROM bookings WHERE user_id = ?`. -/
def DB.getUserBookings (db : DB) (user_id : String) : List Booking :=
  db.bookings.filter (fun b => b.user_id == user_id)

/-- `LunaDatabase.get_all_user_ids`: `SELECT user_id FROM users`. -/
def DB.getAllUserIds (db : DB) : List String := db.users.map (fun u => u.user_id)

/-- Insertion-ordered association list modelling a Python dict with string keys. -/
abbrev Dict (α : Type) := List (String × α)

/-- Python `d.get(k, default)`. -/
def dictGet {α : Type} (d : Dict α) (k : String) (default : α) : α :=
  match d.lookup k with
  | some v => v
  | none => default

/-- Python `k in d`. -/
def dictHasKey {α : Type} (d : Dict α) (k : String) : Bool :=
  (d.lookup k).isSome

/-- Python `d[k] = v`: update in place if the key exists, else append (insertion order). -/
def dictSet {α : Type} (d : Dict α) (k : String) (v : α) : Dict α :=
  match d with
  | [] => [(k, v)]
  | (k1, v1) :: rest => if k1 == k then (k, v) :: rest else (k1, v1) :: dictSet rest k v

/-- Python `list(d.keys())`. -/
def dictKeys {α : Type} (d : Dict α) : List String := d.map Prod.fst

/-- The transcendental functions of Python's `math` module used by
`calculate_distance`, abstracted as data so the embedding stays
executable.  Facts about the real functions (oddness of `sin`,
non-negativity of `sqrt` and of `asin` on non-negative inputs) appear as
hypotheses of the theorems that need them. -/
structure TrigModel where
  sin : ℚ → ℚ
  cos : ℚ → ℚ
  sqrt : ℚ → ℚ
  asin : ℚ → ℚ
  pi : ℚ

/-- `math.radians(x) = x * pi / 180`. -/
def TrigModel.radians (T : TrigModel) (x : ℚ) : ℚ := x * T.pi / 180

/-- `RecommendationEngine.calculate_distance` (Haversine, Earth radius 6371 km). -/
def calculate_distance (T : TrigModel) (loc1 loc2 : ℚ × ℚ) : ℚ :=
  let lat1 := loc1.1
  let lon1 := loc1.2
  let lat2 := loc2.1
  let lon2 := loc2.2
  let R : ℚ := 6371
  let dlat := T.radians (lat2 - lat1)
  let dlon := T.radians (lon2 - lon1)
  let a := T.sin (dlat / 2) ^ 2 +
    T.cos (T.radians lat1) * T.cos (T.radians lat2) * T.sin (dlon / 2) ^ 2
  let c := 2 * T.asin (T.sqrt a)
  R * c

/-- Per-category counters of `build_user_profile`
(`{"views": 0, "likes": 0, "saves": 0, "visits": 0}`). -/
structure CategoryMetrics where
  views : Nat
  likes : Nat
  saves : Nat
  visits : Nat
  deriving DecidableEq, Repr

/-- The zero counters produced by the `defaultdict` default. -/
def CategoryMetrics.zero : CategoryMetrics := ⟨0, 0, 0, 0⟩

/-- The dict returned by `RecommendationEngine.build_user_profile`. -/
structure UserProfile where
  user_id : String
  location : ℚ × ℚ
  interests : List String
  category_scores : Dict ℚ
  total_engagement : Nat
  avg_view_time : ℚ
  deriving DecidableEq, Repr

/-- Python exceptions surfaced by the engine.  `attributeError` models the
`AttributeError` raised by dereferencing `None`; `notFound` models the
distinguished missing-entity error postulated by the spec (the code never
raises it — no such class exists in the repository). -/
inductive PyError where
  | attributeError
  | notFound
  deriving DecidableEq, Repr

/-- One step of the accumulation loop of `build_user_profile`
(lines 807–819): look up the venue, then bump the per-category counter for
the interaction's type; `comment`/`click` interactions touch nothing. -/
def profileStep (db : DB) (acc : Dict CategoryMetrics × ℤ) (inter : Interaction) :
    Dict CategoryMetrics × ℤ :=
  match db.getVenue inter.venue_id with
  | none => acc
  | some venue =>
    let category := venue.category.value
    let m := dictGet acc.1 category CategoryMetrics.zero
    match inter.interaction_type with
    | .view => (dictSet acc.1 category { m with views := m.views + 1 },
        acc.2 + inter.duration_seconds)
    | .like => (dictSet acc.1 category { m with likes := m.likes + 1 }, acc.2)
    | .save => (dictSet acc.1 category { m with saves := m.saves + 1 }, acc.2)
    | .visit => (dictSet acc.1 category { m with visits := m.visits + 1 }, acc.2)
    | _ => acc

/-- `views*0.3 + likes*1.0 + saves*1.5 + visits*2.0` (line 824). -/
def categoryScoreOf (m : CategoryMetrics) : ℚ :=
  (m.views : ℚ) * (3 / 10) + (m.likes : ℚ) * 1 + (m.saves : ℚ) * (3 / 2) + (m.visits : ℚ) * 2

/-- The successful branch of `build_user_profile` for an existing `user`
record: accumulate per-category counters over the user's interactions,
convert them to `category_scores`, and assemble the profile dict. -/
def profileOf (db : DB) (user_id : String) (user : User) : UserProfile :=
  let interactions := db.getUserInteractions user_id
  let acc := interactions.foldl (profileStep db) ([], 0)
  let category_scores := acc.1.map (fun p => (p.1, categoryScoreOf p.2))
  let viewCount := (interactions.filter (fun i => i.interaction_type == .view)).length
  { user_id := user_id,
    location := user.location,
    interests := user.interests,
    category_scores := category_scores,
    total_engagement := interactions.length,
    avg_view_time := (acc.2 : ℚ) / ((max viewCount 1 : ℕ) : ℚ) }

/-- `RecommendationEngine.build_user_profile`.  The source performs no
existence check: when `get_user` returns `None` the accumulation still
runs, and the method then raises `AttributeError` at `user.location`
while building the result dict — not a distinguished NotFound error. -/
def build_user_profile (db : DB) (user_id : String) : Except PyError UserProfile :=
  match db.getUser user_id with
  | none => .error .attributeError
  | some user => .ok (profileOf db user_id user)

/-- The 5-entry feature vector of `get_venue_features`
(`np.array([...])`, indices 0–4 in field order). -/
structure FeatureVector where
  rating_norm : ℚ
  distance_score : ℚ
  trending : ℚ
  category_component : ℚ
  capacity_norm : ℚ
  deriving DecidableEq, Repr

/-- `RecommendationEngine.get_venue_features`. -/
def get_venue_features (T : TrigModel) (venue : Venue) (p : UserProfile) : FeatureVector :=
  let distance := calculate_distance T p.location venue.location
  let distance_score := max 0 (1 - distance / 10)
  let category_match : ℚ := if dictHasKey p.category_scores venue.category.value then 1 else 1 / 2
  let category_engagement := dictGet p.category_scores venue.category.value (1 / 10)
  { rating_norm := venue.rating / 5,
    distance_score := distance_score,
    trending := venue.trending_score,
    category_component := category_match * category_engagement,
    capacity_norm := venue.capacity / 1000 }

/-- `needle in haystack` on lowered strings, as `interest.lower() in
venue.name.lower()`; substring search over the character lists. -/
def charsHaveStart (needle haystack : List Char) : Bool :=
  match needle, haystack with
  | [], _ => true
  | _ :: _, [] => false
  | x :: xs, y :: ys => x == y && charsHaveStart xs ys

/-- Occurrence of `needle` anywhere in `haystack` (character lists). -/
def charsHaveSub (needle haystack : List Char) : Bool :=
  match haystack with
  | [] => charsHaveStart needle []
  | _ :: rest => charsHaveStart needle haystack || charsHaveSub needle rest

/-- Python `needle.lower() in haystack.lower()`. -/
def strContainsLower (haystack needle : String) : Bool :=
  charsHaveSub needle.toLower.data haystack.toLower.data

/-- The per-venue reasoning dict appended by `recommend_venues`
(lines 882–891).  The source dict has exactly these keys; it never adds an
`ml_score` key, which the dashboard reads back with `d.get("ml_score")` —
so that field is modelled as an `Option` that the code always leaves
`none`. -/
structure ReasoningDetail where
  venue : String
  rating_component : ℚ
  distance_component : ℚ
  trending_component : ℚ
  category_component : ℚ
  interest_boost : ℚ
  category_boost : ℚ
  final_score : ℚ
  ml_score : Option ℚ
  deriving DecidableEq, Repr

/-- Stable insertion of `x` into a list already sorted descending by
`key`, keeping earlier-inserted equal keys behind `x`. -/
def insertDescBy {α : Type} (key : α → ℚ) (x : α) : List α → List α
  | [] => [x]
  | y :: ys => if key y ≤ key x then x :: y :: ys else y :: insertDescBy key x ys

/-- Python `list.sort(key=..., reverse=True)`: stable descending sort by key. -/
def sortDescBy {α : Type} (key : α → ℚ) (l : List α) : List α :=
  l.foldr (insertDescBy key) []

/-- State held on the engine object (`self`): the `StandardScaler` (its
fitted state modelled by the matrix it was fit on, `none` while unfitted),
the trained `RandomForestRegressor` (modelled by the dataset it was fit
on, absent until the first successful training), and the recorded sample
count. -/
structure EngineState where
  scaler : Option (List FeatureVector)
  rank_model : Option (List (FeatureVector × ℚ))
  training_samples : Option Nat
  deriving DecidableEq, Repr

/-- The initial engine state created by `RecommendationEngine.__init__`. -/
def EngineState.init : EngineState :=
  { scaler := none, rank_model := none, training_samples := none }

/-- `np.sum(features * np.array([0.25, 0.25, 0.2, 0.25, 0.05]))` (line 868). -/
def baseScore (f : FeatureVector) : ℚ :=
  f.rating_norm * (1 / 4) + f.distance_score * (1 / 4) + f.trending * (1 / 5) +
    f.category_component * (1 / 4) + f.capacity_norm * (1 / 20)

/-- The interest boost of lines 871–874: `+0.15` for every interest whose
lowered text occurs in the venue's lowered name or description. -/
def interestBoost (user_profile : UserProfile) (venue : Venue) : ℚ :=
  user_profile.interests.foldl
    (fun b interest =>
      if strContainsLower venue.name interest || strContainsLower venue.description interest
      then b + 3 / 20 else b) 0

/-- The category boost of line 877: `category_scores.get(category, 0) * 0.1`. -/
def categoryBoost (user_profile : UserProfile) (venue : Venue) : ℚ :=
  dictGet user_profile.category_scores venue.category.value 0 * (1 / 10)

/-- `final_score = min(1.0, base_score + interest_boost + category_boost)` (line 879). -/
def finalScore (T : TrigModel) (user_profile : UserProfile) (venue : Venue) : ℚ :=
  min 1 (baseScore (get_venue_features T venue user_profile) +
    interestBoost user_profile venue + categoryBoost user_profile venue)

/-- The reasoning dict appended for one venue (lines 882–891).  The
source builds this dict with exactly the eight keys below; in particular
no `ml_score` key is ever added, so the optional field is `none`. -/
def reasoningOf (T : TrigModel) (user_profile : UserProfile) (venue : Venue) :
    ReasoningDetail :=
  { venue := venue.name,
    rating_component := (get_venue_features T venue user_profile).rating_norm,
    distance_component := (get_venue_features T venue user_profile).distance_score,
    trending_component := (get_venue_features T venue user_profile).trending,
    category_component := (get_venue_features T venue user_profile).category_component,
    interest_boost := interestBoost user_profile venue,
    category_boost := categoryBoost user_profile venue,
    final_score := finalScore T user_profile venue,
    ml_score := none }

/-- The body of the per-venue loop of `recommend_venues` (lines 862–891):
look up the requester's bookings (checked but discarded — the `pass`
branch), extract features, score, and append both the scored tuple and
the reasoning dict. -/
def scoreVenueStep (T : TrigModel) (db : DB) (user_id : String)
    (user_profile : UserProfile)
    (acc : List (Venue × ℚ × ℚ × ℚ) × List ReasoningDetail) (venue : Venue) :
    List (Venue × ℚ × ℚ × ℚ) × List ReasoningDetail :=
  let _bookedIds := (db.getUserBookings user_id).map (fun b => b.venue_id)
  (acc.1 ++ [(venue, finalScore T user_profile venue, interestBoost user_profile venue,
      categoryBoost user_profile venue)],
    acc.2 ++ [reasoningOf T user_profile venue])

/-- `RecommendationEngine.recommend_venues`.  Returns the ranked
`(venue, final_score)` pairs together with the reasoning details, or
propagates the failure of `build_user_profile`.  `st` is `self`'s mutable
ML state, which this method never reads. -/
def recommend_venues (T : TrigModel) (st : EngineState) (db : DB) (user_id : String)
    (limit : Nat) : Except PyError (List (Venue × ℚ) × List ReasoningDetail) := do
  let user_profile ← build_user_profile db user_id
  let all_venues := db.getAllVenues
  let (scored_venues, reasoning_details) :=
    all_venues.foldl (scoreVenueStep T db user_id user_profile) ([], [])
  let sorted := sortDescBy (fun x => x.2.1) scored_venues
  let recommendations := (sorted.take limit).map (fun x => (x.1, x.2.1))
  let sorted_details := sortDescBy (fun d => d.final_score) reasoning_details
  pure (recommendations, sorted_details.take limit)

/-- `len(set(a))` for Python string sets, modelled by list deduplication. -/
def pySetCard (a : List String) : Nat := a.dedup.length

/-- `len(set(a) & set(b))`. -/
def pyInterCard (a b : List String) : Nat :=
  (a.dedup.filter (fun x => b.contains x)).length

/-- `len(set(a) | set(b))`. -/
def pyUnionCard (a b : List String) : Nat := (a ++ b).dedup.length

/-- The interest-overlap term of `recommend_users` (line 922):
`len(interests_a & interests_b) / max(len(interests_a | interests_b), 1)`. -/
def interestOverlap (a b : UserProfile) : ℚ :=
  (pyInterCard a.interests b.interests : ℚ) /
    ((max (pyUnionCard a.interests b.interests) 1 : ℕ) : ℚ)

/-- The category-overlap term of `recommend_users` (lines 925–927), over
the key sets of the two `category_scores` dicts. -/
def categoryOverlap (a b : UserProfile) : ℚ :=
  (pyInterCard (dictKeys a.category_scores) (dictKeys b.category_scores) : ℚ) /
    ((max (pyUnionCard (dictKeys a.category_scores) (dictKeys b.category_scores)) 1 : ℕ) : ℚ)

/-- The pairwise compatibility computation of `recommend_users`
(lines 921–934): `interest_overlap*0.4 + category_overlap*0.35 +
location_score*0.25` with `location_score = max(0, 1 - distance/20)`. -/
def compatibilityScore (T : TrigModel) (a b : UserProfile) : ℚ :=
  let distance := calculate_distance T a.location b.location
  let location_score := max 0 (1 - distance / 20)
  interestOverlap a b * (2 / 5) + categoryOverlap a b * (7 / 20) + location_score * (1 / 4)

/-- `f"user_{i:03d}"`: decimal digits, zero-padded on the left to width 3. -/
def userIdOf (i : Nat) : String :=
  let s := toString i
  "user_" ++ String.mk (List.replicate (3 - s.length) '0') ++ s

/-- The candidate-collection loop of `recommend_users` (lines 907–915):
probe `user_000`, `user_001`, … and stop at the first id that does not
resolve; keep every hit other than the requester and their blocked users.
The Python loop is `while True`; it terminates because the users table is
finite, so the fuel `db.users.length + 1` always suffices (the theorems
proved about it do not depend on the fuel being sufficient). -/
def collectCandidates (db : DB) (user_id : String) (target : User) :
    Nat → Nat → List User
  | 0, _ => []
  | fuel + 1, i =>
    match db.getUser (userIdOf i) with
    | none => []
    | some user =>
      (if user.user_id != user_id && !(target.blocked_users.contains user.user_id)
       then [user] else []) ++ collectCandidates db user_id target fuel (i + 1)

/-- The body of the scoring loop of `recommend_users` (lines 918–935):
rebuild the other user's profile and pair them with the compatibility
score against the requester's profile. -/
def scoreCandidate (T : TrigModel) (db : DB) (target_profile : UserProfile)
    (other_user : User) : Except PyError (User × ℚ) := do
  let other_profile ← build_user_profile db other_user.user_id
  pure (other_user, compatibilityScore T target_profile other_profile)

/-- `RecommendationEngine.recommend_users`.  When the requesting user does
not exist, `build_user_profile` (line 904) raises `AttributeError`
(dereference of `None`); `target_user.blocked_users` at line 913 would
raise the same. -/
def recommend_users (T : TrigModel) (db : DB) (user_id : String) (limit : Nat) :
    Except PyError (List (User × ℚ)) :=
  match db.getUser user_id with
  | none => .error .attributeError
  | some target_user =>
    let target_profile := profileOf db user_id target_user
    let all_users := collectCandidates db user_id target_user (db.users.length + 1) 0
    do
      let scored_users ← all_users.mapM (scoreCandidate T db target_profile)
      let sorted := sortDescBy (fun x => x.2) scored_users
      pure (sorted.take limit)

/-- The label assigned to one interaction during training-set assembly
(lines 736–747): LIKE/SAVE/VISIT ↦ 1.0; VIEW ↦ 0.0 when
`duration_seconds <= 15`, 1.0 when `>= 60`, otherwise no label; any other
type ↦ no label. -/
def labelOf (inter : Interaction) : Option ℚ :=
  match inter.interaction_type with
  | .like => some 1
  | .save => some 1
  | .visit => some 1
  | .view =>
    if inter.duration_seconds ≤ 15 then some 0
    else if 60 ≤ inter.duration_seconds then some 1
    else none
  | _ => none

/-- One step of the `venue_label` aggregation (lines 749–754): for a
labelled interaction, `venue_label[vid] = max(venue_label.get(vid, 0.0),
label)`; unlabelled interactions are skipped. -/
def labelStep (acc : Dict ℚ) (inter : Interaction) : Dict ℚ :=
  match labelOf inter with
  | none => acc
  | some label => dictSet acc inter.venue_id (max (dictGet acc inter.venue_id 0) label)

/-- The `venue_label` aggregation dict of lines 734–754. -/
def venueLabels (inters : List Interaction) : Dict ℚ :=
  inters.foldl labelStep []

/-- Training-set assembly of `train_ranker_from_interactions`
(lines 729–762): for every stored user id, build the profile, aggregate
per-venue labels, and emit one `(features, label)` sample per labelled
venue that still resolves.  The `getUser` fallback is unreachable: the ids
come from the users table itself. -/
def assembleSamples (T : TrigModel) (db : DB) : List (FeatureVector × ℚ) :=
  db.getAllUserIds.flatMap (fun uid =>
    match db.getUser uid with
    | none => []
    | some user =>
      let profile := profileOf db uid user
      let inters := db.getUserInteractions uid
      (venueLabels inters).flatMap (fun p =>
        match db.getVenue p.1 with
        | none => []
        | some venue => [(get_venue_features T venue profile, p.2)]))

/-- `RecommendationEngine.train_ranker_from_interactions`: returns the
updated engine state.  With no users, or with fewer than `min_samples`
assembled samples, it returns before touching `self.scaler`,
`self.rank_model` or `self.training_samples`; otherwise it fits the scaler
on the sample features and stores the fitted forest (modelled by its
dataset) and the sample count. -/
def train_ranker_from_interactions (T : TrigModel) (st : EngineState) (db : DB)
    (min_samples : Nat) : EngineState :=
  if db.getAllUserIds.isEmpty then st
  else
    let samples := assembleSamples T db
    if samples.length < min_samples then st
    else
      { st with
        scaler := some (samples.map Prod.fst),
        rank_model := some samples,
        training_samples := some samples.length }

/-! ### General lemmas about the embedded definitions -/

/-- A successful `lookup` hit is a member of the association list. -/
theorem mem_of_lookup_eq_some {α : Type} {d : Dict α} {k : String} {v : α}
    (h : d.lookup k = some v) : (k, v) ∈ d := by
  induction d with
  | nil => simp [List.lookup] at h
  | cons p rest ih =>
    rcases p with ⟨k1, v1⟩
    by_cases hk : k = k1
    · subst hk
      simp [List.lookup] at h
      subst h
      exact List.mem_cons_self _ _
    · have hb : (k == k1) = false := by
        simpa using hk
      simp [List.lookup, hb] at h
      exact List.mem_cons_of_mem _ (ih h)

/-- `d.get(k, default)` is non-negative when every stored value and the
default are. -/
theorem dictGet_nonneg {d : Dict ℚ} {k : String} {dflt : ℚ}
    (hd : ∀ q ∈ d, 0 ≤ q.2) (h0 : 0 ≤ dflt) : 0 ≤ dictGet d k dflt := by
  unfold dictGet
  cases hl : d.lookup k with
  | none => exact h0
  | some v => exact hd _ (mem_of_lookup_eq_some hl)

/-- Every category score computed by `build_user_profile` is non-negative:
it is a weighted count with non-negative weights. -/
theorem categoryScoreOf_nonneg (m : CategoryMetrics) : 0 ≤ categoryScoreOf m := by
  unfold categoryScoreOf
  positivity

/-- All values of the `category_scores` dict built by `profileOf` are
non-negative. -/
theorem profileOf_scores_nonneg (db : DB) (uid : String) (user : User) :
    ∀ q ∈ (profileOf db uid user).category_scores, 0 ≤ q.2 := by
  intro q hq
  unfold profileOf at hq
  simp only [List.mem_map] at hq
  obtain ⟨p, _, rfl⟩ := hq
  exact categoryScoreOf_nonneg p.2

/-- Closed form of `calculate_distance` with the `let` bindings expanded. -/
theorem calculate_distance_eq (T : TrigModel) (loc1 loc2 : ℚ × ℚ) :
    calculate_distance T loc1 loc2 =
      6371 * (2 * T.asin (T.sqrt
        (T.sin (T.radians (loc2.1 - loc1.1) / 2) ^ 2 +
         T.cos (T.radians loc1.1) * T.cos (T.radians loc2.1) *
           T.sin (T.radians (loc2.2 - loc1.2) / 2) ^ 2))) := rfl

/-- The Haversine value is non-negative whenever the model's `sqrt` is
non-negative and its `asin` preserves non-negativity (as the real
functions do). -/
theorem calculate_distance_nonneg (T : TrigModel)
    (hsqrt : ∀ x, 0 ≤ T.sqrt x) (hasin : ∀ x, 0 ≤ x → 0 ≤ T.asin x)
    (loc1 loc2 : ℚ × ℚ) : 0 ≤ calculate_distance T loc1 loc2 := by
  rw [calculate_distance_eq]
  have h1 : (0:ℚ) ≤ T.asin (T.sqrt
      (T.sin (T.radians (loc2.1 - loc1.1) / 2) ^ 2 +
       T.cos (T.radians loc1.1) * T.cos (T.radians loc2.1) *
         T.sin (T.radians (loc2.2 - loc1.2) / 2) ^ 2)) :=
    hasin _ (hsqrt _)
  linarith

/-- Stable descending insertion produces a permutation of consing. -/
theorem insertDescBy_perm {α : Type} (key : α → ℚ) (x : α) (l : List α) :
    (insertDescBy key x l).Perm (x :: l) := by
  induction l with
  | nil => simp [insertDescBy]
  | cons y ys ih =>
    rw [insertDescBy]
    by_cases h : key y ≤ key x
    · simp [h]
    · simp only [h, if_false]
      exact ((ih.cons y).trans (List.Perm.swap x y ys))

/-- `sortDescBy` permutes its input. -/
theorem sortDescBy_perm {α : Type} (key : α → ℚ) (l : List α) :
    (sortDescBy key l).Perm l := by
  induction l with
  | nil => simp [sortDescBy]
  | cons y ys ih =>
    unfold sortDescBy at ih ⊢
    rw [List.foldr]
    exact (insertDescBy_perm key y _).trans (ih.cons y)

/-- Membership is preserved by the descending sort. -/
theorem mem_sortDescBy {α : Type} {key : α → ℚ} {l : List α} {x : α} :
    x ∈ sortDescBy key l ↔ x ∈ l :=
  (sortDescBy_perm key l).mem_iff

/-- The interest boost accumulated by `recommend_venues` is a sum of
`+0.15` steps starting from a non-negative seed, hence non-negative. -/
theorem interest_boost_nonneg (venue : Venue) (interests : List String) {seed : ℚ}
    (h : 0 ≤ seed) :
    0 ≤ interests.foldl
      (fun b interest =>
        if strContainsLower venue.name interest || strContainsLower venue.description interest
        then b + 3 / 20 else b) seed := by
  induction interests generalizing seed with
  | nil => simpa
  | cons i rest ih =>
    rw [List.foldl]
    by_cases hc : (strContainsLower venue.name i || strContainsLower venue.description i) = true
    · simp only [hc, if_true]
      exact ih (by linarith)
    · simp only [hc, if_false]
      exact ih h

/-- Deduplicating does not change the induced finite set. -/
theorem toFinset_dedup (a : List String) : a.dedup.toFinset = a.toFinset := by
  ext x
  simp [List.mem_dedup]

/-- `pyInterCard` computes the cardinality of the intersection of the two
induced finite sets. -/
theorem pyInterCard_eq_card_inter (a b : List String) :
    pyInterCard a b = (a.toFinset ∩ b.toFinset).card := by
  unfold pyInterCard
  have hnd : (a.dedup.filter (fun x => b.contains x)).Nodup :=
    (List.nodup_dedup a).filter _
  rw [← List.toFinset_card_of_nodup hnd]
  congr 1
  ext x
  simp [List.mem_filter, List.mem_dedup]

/-- `pyUnionCard` computes the cardinality of the union of the two induced
finite sets. -/
theorem pyUnionCard_eq_card_union (a b : List String) :
    pyUnionCard a b = (a.toFinset ∪ b.toFinset).card := by
  unfold pyUnionCard
  rw [← List.toFinset_card_of_nodup (List.nodup_dedup (a ++ b))]
  rw [toFinset_dedup, List.toFinset_append]

/-- The intersection count is symmetric. -/
theorem pyInterCard_comm (a b : List String) : pyInterCard a b = pyInterCard b a := by
  rw [pyInterCard_eq_card_inter, pyInterCard_eq_card_inter, Finset.inter_comm]

/-- The union count is symmetric. -/
theorem pyUnionCard_comm (a b : List String) : pyUnionCard a b = pyUnionCard b a := by
  rw [pyUnionCard_eq_card_union, pyUnionCard_eq_card_union, Finset.union_comm]

/-! ### Concrete fixtures used by counterexamples and witnesses -/

/-- A concrete trig model: every transcendental function is constantly 0.
It satisfies the analytic hypotheses our theorems take (oddness of `sin`,
non-negative `sqrt`, `asin` preserving non-negativity), and makes every
concrete distance evaluate to 0. -/
def trigZero : TrigModel :=
  { sin := fun _ => 0, cos := fun _ => 0, sqrt := fun _ => 0, asin := fun _ => 0, pi := 0 }

/-- A concrete venue (category Café, rating 4 ∈ [0,5], trending 1/2 ∈ [0,1]). -/
def cafeVenue : Venue :=
  { venue_id := "ven_000", name := "Cafe One", category := .cafe, location := (0, 0),
    description := "a cafe", rating := 4, capacity := 100, trending_score := 1 / 2 }

/-- A concrete user with no interests. -/
def aliceUser : User :=
  { user_id := "user_000", location := (0, 0), interests := [], blocked_users := [] }

/-- A single VISIT interaction of Alice at the café. -/
def visitInteraction : Interaction :=
  { interaction_id := "int_000", user_id := "user_000", venue_id := "ven_000",
    interaction_type := .visit, duration_seconds := 0 }

/-- A database with one user, one venue and one VISIT interaction. -/
def dbVisit : DB :=
  { users := [aliceUser], venues := [cafeVenue], interactions := [visitInteraction],
    bookings := [] }

/-- The profile built from `dbVisit`: one VISIT gives the Café a category
score of `2.0`. -/
theorem profile_dbVisit :
    build_user_profile dbVisit "user_000" =
      .ok { user_id := "user_000", location := (0, 0), interests := [],
            category_scores := [("Café", 2)], total_engagement := 1,
            avg_view_time := 0 } := by
  norm_num [build_user_profile, dbVisit, DB.getUser, aliceUser, profileOf,
    DB.getUserInteractions, visitInteraction, profileStep, DB.getVenue, cafeVenue,
    dictGet, dictSet, categoryScoreOf, CategoryMetrics.zero, List.find?, List.filter,
    List.lookup, VenueCategory.value]

/-- A cold-start profile: no interests, no category scores. -/
def coldProfile : UserProfile :=
  { user_id := "user_000", location := (0, 0), interests := [],
    category_scores := [], total_engagement := 0, avg_view_time := 0 }

/-- A second concrete profile, with interests and category scores. -/
def bobProfile : UserProfile :=
  { user_id := "user_001", location := (1, 2), interests := ["art", "hiking"],
    category_scores := [("Park", 1)], total_engagement := 3, avg_view_time := 20 }

/-- An engine state in which a trained ranker model is loaded. -/
def trainedState : EngineState :=
  { scaler := some [], rank_model := some [], training_samples := some 50 }

/-- Closed form of `get_venue_features` with the `let` bindings expanded. -/
theorem get_venue_features_eq (T : TrigModel) (venue : Venue) (p : UserProfile) :
    get_venue_features T venue p =
      { rating_norm := venue.rating / 5,
        distance_score := max 0 (1 - calculate_distance T p.location venue.location / 10),
        trending := venue.trending_score,
        category_component :=
          (if dictHasKey p.category_scores venue.category.value then 1 else 1 / 2) *
            dictGet p.category_scores venue.category.value (1 / 10),
        capacity_norm := venue.capacity / 1000 } := rfl

/-! ### C1 -/

/-- C1 (amended): for a venue with `rating ∈ [0,5]`, `trending_score ∈
[0,1]` and `capacity ≥ 0`, and a profile with non-negative category
scores, the first three features of `get_venue_features` lie in `[0,1]`
and the capacity feature equals `capacity/1000` (hence lies in
`[0, capacity/1000]`); the fourth feature is non-negative and bounded by
the profile's category-engagement value — not by 1, which it can exceed.
The distance hypotheses hold for the real `sqrt`/`asin`. -/
theorem feature_ranges (T : TrigModel)
    (hsqrt : ∀ x, 0 ≤ T.sqrt x) (hasin : ∀ x, 0 ≤ x → 0 ≤ T.asin x)
    (venue : Venue) (p : UserProfile)
    (hr0 : 0 ≤ venue.rating) (hr5 : venue.rating ≤ 5)
    (ht0 : 0 ≤ venue.trending_score) (ht1 : venue.trending_score ≤ 1)
    (hcap : 0 ≤ venue.capacity)
    (hs : ∀ q ∈ p.category_scores, 0 ≤ q.2) :
    (0 ≤ (get_venue_features T venue p).rating_norm ∧
      (get_venue_features T venue p).rating_norm ≤ 1) ∧
    (0 ≤ (get_venue_features T venue p).distance_score ∧
      (get_venue_features T venue p).distance_score ≤ 1) ∧
    (0 ≤ (get_venue_features T venue p).trending ∧
      (get_venue_features T venue p).trending ≤ 1) ∧
    (0 ≤ (get_venue_features T venue p).category_component ∧
      (get_venue_features T venue p).category_component ≤
        dictGet p.category_scores venue.category.value (1 / 10)) ∧
    (0 ≤ (get_venue_features T venue p).capacity_norm ∧
      (get_venue_features T venue p).capacity_norm = venue.capacity / 1000) := by
  rw [get_venue_features_eq]
  have hdist := calculate_distance_nonneg T hsqrt hasin p.location venue.location
  have heng : 0 ≤ dictGet p.category_scores venue.category.value (1 / 10) :=
    dictGet_nonneg hs (by norm_num)
  refine ⟨⟨div_nonneg hr0 (by norm_num), ?_⟩, ⟨le_max_left _ _, ?_⟩, ⟨ht0, ht1⟩,
    ⟨?_, ?_⟩, ⟨div_nonneg hcap (by norm_num), rfl⟩⟩
  · rw [div_le_one (by norm_num : (0:ℚ) < 5)]
    linarith
  · refine max_le (by norm_num) ?_
    have : 0 ≤ calculate_distance T p.location venue.location / 10 :=
      div_nonneg hdist (by norm_num)
    linarith
  · exact mul_nonneg (by split_ifs <;> norm_num) heng
  · exact mul_le_of_le_one_left heng (by split_ifs <;> norm_num)

/-- C1 (counterexample to the claim as stated): `cafeVenue` has rating
`4 ∈ [0,5]` and trending `1/2 ∈ [0,1]`, and the profile actually built by
`build_user_profile` on `dbVisit` (one VISIT) gives a fourth feature of
`1.0 * 2.0 = 2.0 > 1`. -/
theorem feature_ranges_counterexample :
    (0 ≤ cafeVenue.rating ∧ cafeVenue.rating ≤ 5 ∧
      0 ≤ cafeVenue.trending_score ∧ cafeVenue.trending_score ≤ 1) ∧
    (build_user_profile dbVisit "user_000").map
        (fun p => (get_venue_features trigZero cafeVenue p).category_component) = .ok 2 ∧
    ¬ ((2 : ℚ) ≤ 1) := by
  refine ⟨by norm_num [cafeVenue], ?_, by norm_num⟩
  rw [profile_dbVisit]
  norm_num [Except.map, get_venue_features_eq, dictHasKey, dictGet, List.lookup,
    cafeVenue, VenueCategory.value]

/-- Witness for `feature_ranges` at `trigZero`, `cafeVenue` and the
cold-start profile (empty category scores). -/
theorem feature_ranges_witness :
    (∀ x, 0 ≤ trigZero.sqrt x) ∧ (∀ x, 0 ≤ x → 0 ≤ trigZero.asin x) ∧
    (0 ≤ cafeVenue.rating ∧ cafeVenue.rating ≤ 5 ∧
      0 ≤ cafeVenue.trending_score ∧ cafeVenue.trending_score ≤ 1 ∧
      0 ≤ cafeVenue.capacity) ∧
    ((0 ≤ (get_venue_features trigZero cafeVenue coldProfile).rating_norm ∧
       (get_venue_features trigZero cafeVenue coldProfile).rating_norm ≤ 1) ∧
     (0 ≤ (get_venue_features trigZero cafeVenue coldProfile).distance_score ∧
       (get_venue_features trigZero cafeVenue coldProfile).distance_score ≤ 1) ∧
     (0 ≤ (get_venue_features trigZero cafeVenue coldProfile).trending ∧
       (get_venue_features trigZero cafeVenue coldProfile).trending ≤ 1) ∧
     (0 ≤ (get_venue_features trigZero cafeVenue coldProfile).category_component ∧
       (get_venue_features trigZero cafeVenue coldProfile).category_component ≤
         dictGet coldProfile.category_scores cafeVenue.category.value (1 / 10)) ∧
     (0 ≤ (get_venue_features trigZero cafeVenue coldProfile).capacity_norm ∧
       (get_venue_features trigZero cafeVenue coldProfile).capacity_norm =
         cafeVenue.capacity / 1000)) := by
  refine ⟨fun x => by norm_num [trigZero], fun x _ => by norm_num [trigZero],
    by norm_num [cafeVenue], ?_⟩
  exact feature_ranges trigZero (fun x => by norm_num [trigZero])
    (fun x _ => by norm_num [trigZero]) cafeVenue coldProfile
    (by norm_num [cafeVenue]) (by norm_num [cafeVenue])
    (by norm_num [cafeVenue]) (by norm_num [cafeVenue])
    (by norm_num [cafeVenue]) (by simp [coldProfile])

/-! ### C7 -/

/-- C7 (counterexample to the claim as stated): for two profiles with
empty interest lists, the interest-overlap term of `recommend_users`
evaluates to `0 / max(0, 1) = 0`, not the `0.5` the spec prescribes. -/
theorem interestOverlap_empty_counterexample :
    interestOverlap coldProfile coldProfile = 0 ∧ (0 : ℚ) ≠ 1 / 2 := by
  constructor
  · norm_num [interestOverlap, pyInterCard, pyUnionCard, coldProfile, List.dedup]
  · norm_num

/-- C7 (amended): when both users' interest sets are empty, the
interest-overlap term equals `0` (the `max(…, 1)` guard turns the empty
union into a denominator of 1 and the numerator is 0). -/
theorem interestOverlap_empty (a b : UserProfile)
    (ha : a.interests = []) (hb : b.interests = []) :
    interestOverlap a b = 0 := by
  norm_num [interestOverlap, pyInterCard, pyUnionCard, ha, hb, List.dedup]

/-- Witness for `interestOverlap_empty` at two concrete empty-interest
profiles. -/
theorem interestOverlap_empty_witness :
    coldProfile.interests = [] ∧ interestOverlap coldProfile coldProfile = 0 :=
  ⟨by simp [coldProfile], interestOverlap_empty coldProfile coldProfile
    (by simp [coldProfile]) (by simp [coldProfile])⟩

/-! ### C8 -/

/-- Closed form of `compatibilityScore` with the `let` bindings expanded. -/
theorem compatibilityScore_eq (T : TrigModel) (a b : UserProfile) :
    compatibilityScore T a b =
      interestOverlap a b * (2 / 5) + categoryOverlap a b * (7 / 20) +
        max 0 (1 - calculate_distance T a.location b.location / 20) * (1 / 4) := rfl

/-- The Haversine formula is symmetric in its two coordinates, given that
the model's `sin` is odd (as the real sine is): the latitude and longitude
differences flip sign, which squares away, and the cosine product
commutes. -/
theorem calculate_distance_symm (T : TrigModel)
    (hsin : ∀ x, T.sin (-x) = -T.sin x) (loc1 loc2 : ℚ × ℚ) :
    calculate_distance T loc1 loc2 = calculate_distance T loc2 loc1 := by
  rw [calculate_distance_eq, calculate_distance_eq]
  have key : ∀ x : ℚ, T.sin (-x) ^ 2 = T.sin x ^ 2 := by
    intro x
    rw [hsin]
    ring
  have h1 : T.radians (loc2.1 - loc1.1) / 2 = -(T.radians (loc1.1 - loc2.1) / 2) := by
    unfold TrigModel.radians
    ring
  have h2 : T.radians (loc2.2 - loc1.2) / 2 = -(T.radians (loc1.2 - loc2.2) / 2) := by
    unfold TrigModel.radians
    ring
  rw [h1, h2, key, key, mul_comm (T.cos (T.radians loc1.1)) (T.cos (T.radians loc2.1))]

/-- The interest-overlap term is symmetric. -/
theorem interestOverlap_comm (a b : UserProfile) :
    interestOverlap a b = interestOverlap b a := by
  unfold interestOverlap
  rw [pyInterCard_comm, pyUnionCard_comm]

/-- The category-overlap term is symmetric. -/
theorem categoryOverlap_comm (a b : UserProfile) :
    categoryOverlap a b = categoryOverlap b a := by
  unfold categoryOverlap
  rw [pyInterCard_comm, pyUnionCard_comm]

/-- C8: the pairwise compatibility score of `recommend_users` is
symmetric, and so is the underlying Haversine distance, given oddness of
the model's `sin` (true of the real sine).  Profiles always carry a
location in this embedding (the `User` table's `location` column is
mandatory). -/
theorem compatibility_symm (T : TrigModel)
    (hsin : ∀ x, T.sin (-x) = -T.sin x) (a b : UserProfile) :
    compatibilityScore T a b = compatibilityScore T b a ∧
    calculate_distance T a.location b.location =
      calculate_distance T b.location a.location := by
  have hd := calculate_distance_symm T hsin a.location b.location
  refine ⟨?_, hd⟩
  rw [compatibilityScore_eq, compatibilityScore_eq, interestOverlap_comm,
    categoryOverlap_comm, hd]

/-- Witness for `compatibility_symm` at `trigZero` (whose constant-zero
`sin` is odd) and two concrete profiles. -/
theorem compatibility_symm_witness :
    (∀ x, trigZero.sin (-x) = -trigZero.sin x) ∧
    (compatibilityScore trigZero coldProfile bobProfile =
      compatibilityScore trigZero bobProfile coldProfile ∧
    calculate_distance trigZero coldProfile.location bobProfile.location =
      calculate_distance trigZero bobProfile.location coldProfile.location) :=
  ⟨fun x => by norm_num [trigZero],
   compatibility_symm trigZero (fun x => by norm_num [trigZero]) coldProfile bobProfile⟩

/-! ### C5 -/

/-- C5: when fewer than `min_samples` training samples are assembled,
`train_ranker_from_interactions` returns the engine state unchanged — the
loaded ranker model, the fitted scaler and the recorded sample count are
exactly as before the call (both early returns, the empty-user-table one
and the gate, fire before `self.scaler`, `self.rank_model` or
`self.training_samples` is touched). -/
theorem train_ranker_gate (T : TrigModel) (st : EngineState) (db : DB)
    (min_samples : Nat) (h : (assembleSamples T db).length < min_samples) :
    train_ranker_from_interactions T st db min_samples = st := by
  unfold train_ranker_from_interactions
  by_cases he : db.getAllUserIds.isEmpty
  · simp [he]
  · simp [he, h]

/-- Witness for `train_ranker_gate`: `dbVisit` yields exactly one sample,
below the default threshold of 50, so training there is a no-op on a
trained state. -/
theorem train_ranker_gate_witness :
    (assembleSamples trigZero dbVisit).length < 50 ∧
    train_ranker_from_interactions trigZero trainedState dbVisit 50 = trainedState :=
  ⟨by norm_num [assembleSamples, dbVisit, DB.getAllUserIds, DB.getUser, aliceUser,
      DB.getUserInteractions, visitInteraction, DB.getVenue, cafeVenue, venueLabels,
      labelStep, labelOf, dictSet, dictGet, List.find?, List.filter, List.lookup,
      List.flatMap, profileOf, profileStep, categoryScoreOf, CategoryMetrics.zero,
      VenueCategory.value],
   train_ranker_gate trigZero trainedState dbVisit 50
    (by norm_num [assembleSamples, dbVisit, DB.getAllUserIds, DB.getUser, aliceUser,
      DB.getUserInteractions, visitInteraction, DB.getVenue, cafeVenue, venueLabels,
      labelStep, labelOf, dictSet, dictGet, List.find?, List.filter, List.lookup,
      List.flatMap, profileOf, profileStep, categoryScoreOf, CategoryMetrics.zero,
      VenueCategory.value])⟩

/-! ### C9 -/

/-- C9: `recommend_venues` is independent of the bookings table.  The
booked-venue check of lines 863–865 computes the booking list and then
does nothing with it (`pass`), so two stores differing only in bookings
produce identical rankings and reasoning. -/
theorem recommend_venues_bookings_independent (T : TrigModel) (st : EngineState)
    (db : DB) (b1 b2 : List Booking) (user_id : String) (limit : Nat) :
    recommend_venues T st { db with bookings := b1 } user_id limit =
      recommend_venues T st { db with bookings := b2 } user_id limit := rfl

/-! ### C3 -/

/-- C3 (amended): for a `user_id` with no user record,
`build_user_profile` — and `recommend_venues`, which calls it first —
fails, but with the untyped `AttributeError` of dereferencing `None`
(`user.location` on line 830), not with a distinguished NotFound error;
no NotFound error type exists anywhere in the code. -/
theorem missing_user_fails_with_attributeError (T : TrigModel) (st : EngineState)
    (db : DB) (user_id : String) (limit : Nat) (h : db.getUser user_id = none) :
    build_user_profile db user_id = .error .attributeError ∧
    recommend_venues T st db user_id limit = .error .attributeError := by
  have hb : build_user_profile db user_id = .error .attributeError := by
    unfold build_user_profile
    rw [h]
  refine ⟨hb, ?_⟩
  unfold recommend_venues
  rw [hb]
  rfl

/-- C3 (counterexample to the claim as stated): on a store whose only
user is `user_000`, looking up the unknown id `ghost` produces
`attributeError`, which is not the `notFound` error the claim requires. -/
theorem missing_user_counterexample :
    build_user_profile dbVisit "ghost" = .error .attributeError ∧
    (Except.error .attributeError : Except PyError UserProfile) ≠ .error .notFound := by
  constructor
  · unfold build_user_profile
    norm_num [dbVisit, DB.getUser, aliceUser, List.find?]
    rfl
  · simp

/-- Witness for `missing_user_fails_with_attributeError` at `dbVisit` and
the unknown id `ghost`. -/
theorem missing_user_witness :
    dbVisit.getUser "ghost" = none ∧
    (build_user_profile dbVisit "ghost" = .error .attributeError ∧
      recommend_venues trigZero trainedState dbVisit "ghost" 10 =
        .error .attributeError) :=
  ⟨by rfl,
   missing_user_fails_with_attributeError trigZero trainedState dbVisit "ghost" 10
    (by rfl)⟩

/-! ### C6 -/

/-- The labels of the qualifying interactions of one `(user, venue)` pair,
in interaction order: exactly those interactions on `vid` to which
`labelOf` assigns a label. -/
def qualifyingLabels (inters : List Interaction) (vid : String) : List ℚ :=
  inters.filterMap (fun i => if i.venue_id == vid then labelOf i else none)

/-- Looking up the key just written returns the written value. -/
theorem lookup_dictSet_self {α : Type} (d : Dict α) (k : String) (v : α) :
    (dictSet d k v).lookup k = some v := by
  induction d with
  | nil => simp [dictSet, List.lookup]
  | cons p rest ih =>
    rcases p with ⟨k1, v1⟩
    by_cases h : k1 = k
    · subst h
      simp [dictSet, List.lookup]
    · have hb : (k1 == k) = false := by simpa using h
      have hb2 : (k == k1) = false := by simpa using Ne.symm h
      simp [dictSet, hb, List.lookup, hb2, ih]

/-- Writing one key leaves lookups of other keys unchanged. -/
theorem lookup_dictSet_ne {α : Type} (d : Dict α) (k : String) (v : α) (k1 : String)
    (h : k1 ≠ k) : (dictSet d k v).lookup k1 = d.lookup k1 := by
  induction d with
  | nil =>
    have hb : (k1 == k) = false := by simpa using h
    simp [dictSet, List.lookup, hb]
  | cons p rest ih =>
    rcases p with ⟨k2, v2⟩
    by_cases h2 : k2 = k
    · subst h2
      have hb : (k1 == k2) = false := by simpa using h
      simp [dictSet, List.lookup, hb]
    · have hb : (k2 == k) = false := by simpa using h2
      by_cases h3 : k1 = k2
      · subst h3
        simp [dictSet, hb, List.lookup]
      · have hb3 : (k1 == k2) = false := by simpa using h3
        simp [dictSet, hb, List.lookup, hb3, ih]

/-- The seed of a running maximum bounds nothing from above: it only grows. -/
theorem le_foldl_max_init (L : List ℚ) (a : ℚ) : a ≤ L.foldl max a := by
  induction L generalizing a with
  | nil => simp
  | cons x xs ih => exact le_trans (le_max_left a x) (ih (max a x))

/-- Every member of the list is bounded by the running maximum. -/
theorem mem_le_foldl_max {L : List ℚ} {q : ℚ} (hq : q ∈ L) (a : ℚ) :
    q ≤ L.foldl max a := by
  induction L generalizing a with
  | nil => cases hq
  | cons x xs ih =>
    rw [List.foldl]
    rcases List.mem_cons.mp hq with h | h
    · subst h
      exact le_trans (le_max_right a q) (le_foldl_max_init xs (max a q))
    · exact ih h (max a x)

/-- The aggregation fold: after processing `inters` starting from any
accumulator, the entry for `vid` is the running maximum of the qualifying
labels seeded with the accumulator's current entry (default `0.0`). -/
theorem labelFold_get (vid : String) (inters : List Interaction) :
    ∀ acc : Dict ℚ,
      dictGet (inters.foldl labelStep acc) vid 0 =
        (qualifyingLabels inters vid).foldl max (dictGet acc vid 0) := by
  induction inters with
  | nil =>
    intro acc
    simp [qualifyingLabels]
  | cons i rest ih =>
    intro acc
    rw [List.foldl]
    cases hl : labelOf i with
    | none =>
      have hstep : labelStep acc i = acc := by
        simp [labelStep, hl]
      have hq : qualifyingLabels (i :: rest) vid = qualifyingLabels rest vid := by
        cases hb : i.venue_id == vid <;> simp [qualifyingLabels, List.filterMap_cons, hb, hl]
      rw [hstep, hq]
      exact ih acc
    | some l =>
      by_cases hv : i.venue_id = vid
      · have hb : (i.venue_id == vid) = true := by simpa using hv
        have hq : qualifyingLabels (i :: rest) vid = l :: qualifyingLabels rest vid := by
          simp [qualifyingLabels, List.filterMap_cons, hv, hl]
        have hstep : dictGet (labelStep acc i) vid 0 = max (dictGet acc vid 0) l := by
          simp [labelStep, hl, hv, dictGet, lookup_dictSet_self]
        rw [hq, List.foldl, ← hstep]
        exact ih (labelStep acc i)
      · have hb : (i.venue_id == vid) = false := by simpa using hv
        have hq : qualifyingLabels (i :: rest) vid = qualifyingLabels rest vid := by
          simp [qualifyingLabels, List.filterMap_cons, hv]
        have hstep : dictGet (labelStep acc i) vid 0 = dictGet acc vid 0 := by
          simp [labelStep, hl, dictGet, lookup_dictSet_ne _ _ _ _ (Ne.symm hv)]
        rw [hq, ← hstep]
        exact ih (labelStep acc i)

/-- A VIEW of 5 seconds (≤ 15): a negative signal, label `0.0`. -/
def shortViewInteraction : Interaction :=
  { interaction_id := "int_001", user_id := "user_000", venue_id := "ven_000",
    interaction_type := .view, duration_seconds := 5 }

/-- C6: during training-set assembly the per-`(user, venue)` label is the
maximum over all qualifying interactions of the pair — LIKE/SAVE/VISIT
give `1.0`, a VIEW of at most 15 s gives `0.0`, a VIEW of at least 60 s
gives `1.0`, everything else contributes nothing: the stored entry equals
the running maximum (seeded with the `get(vid, 0.0)` default `0.0`) of the
qualifying labels and bounds each of them; in particular one VISIT plus
one short VIEW on the same venue aggregates to `1.0`. -/
theorem venueLabels_max_policy :
    (∀ (inters : List Interaction) (vid : String),
      dictGet (venueLabels inters) vid 0 = (qualifyingLabels inters vid).foldl max 0 ∧
      ∀ q ∈ qualifyingLabels inters vid, q ≤ dictGet (venueLabels inters) vid 0) ∧
    dictGet (venueLabels [visitInteraction, shortViewInteraction]) "ven_000" 0 = 1 := by
  constructor
  · intro inters vid
    have heq := labelFold_get vid inters []
    have h0 : dictGet ([] : Dict ℚ) vid 0 = 0 := by simp [dictGet, List.lookup]
    rw [h0] at heq
    refine ⟨heq, ?_⟩
    intro q hq
    rw [venueLabels, heq]
    exact mem_le_foldl_max hq 0
  · norm_num [venueLabels, labelStep, labelOf, visitInteraction, shortViewInteraction,
      dictSet, dictGet, List.lookup]

/-- Witness instantiating the universally quantified part of
`venueLabels_max_policy` at the concrete VISIT + short-VIEW pair: the
short VIEW's label `0.0` is a member of the qualifying labels and is
bounded by the aggregated label. -/
theorem venueLabels_max_policy_witness :
    (0 : ℚ) ∈ qualifyingLabels [visitInteraction, shortViewInteraction] "ven_000" ∧
    (0 : ℚ) ≤ dictGet (venueLabels [visitInteraction, shortViewInteraction]) "ven_000" 0 :=
  ⟨by norm_num [qualifyingLabels, List.filterMap_cons, labelOf, visitInteraction,
      shortViewInteraction],
   (venueLabels_max_policy.1 [visitInteraction, shortViewInteraction] "ven_000").2 0
    (by norm_num [qualifyingLabels, List.filterMap_cons, labelOf, visitInteraction,
      shortViewInteraction])⟩

/-! ### C4 -/

/-- The first component of one scoring step: the scored tuple of the
current venue is appended to the accumulator. -/
theorem scoreVenueStep_fst (T : TrigModel) (db : DB) (uid : String) (p : UserProfile)
    (acc : List (Venue × ℚ × ℚ × ℚ) × List ReasoningDetail) (v : Venue) :
    (scoreVenueStep T db uid p acc v).1 =
      acc.1 ++ [(v, finalScore T p v, interestBoost p v, categoryBoost p v)] := rfl

/-- The interest boost is non-negative (it only ever adds `0.15`). -/
theorem interestBoost_nonneg (p : UserProfile) (v : Venue) : 0 ≤ interestBoost p v :=
  interest_boost_nonneg v p.interests le_rfl

/-- The heuristic base score is non-negative for a well-formed venue and
a profile with non-negative category scores. -/
theorem baseScore_nonneg (T : TrigModel) (p : UserProfile) (v : Venue)
    (hs : ∀ q ∈ p.category_scores, 0 ≤ q.2)
    (hv : 0 ≤ v.rating ∧ 0 ≤ v.trending_score ∧ 0 ≤ v.capacity) :
    0 ≤ baseScore (get_venue_features T v p) := by
  unfold baseScore
  rw [get_venue_features_eq]
  have h1 : (0:ℚ) ≤ v.rating / 5 := div_nonneg hv.1 (by norm_num)
  have h2 : (0:ℚ) ≤ max 0 (1 - calculate_distance T p.location v.location / 10) :=
    le_max_left _ _
  have h4 : (0:ℚ) ≤ (if dictHasKey p.category_scores v.category.value then 1 else 1 / 2) *
      dictGet p.category_scores v.category.value (1 / 10) :=
    mul_nonneg (by split_ifs <;> norm_num) (dictGet_nonneg hs (by norm_num))
  have h5 : (0:ℚ) ≤ v.capacity / 1000 := div_nonneg hv.2.2 (by norm_num)
  have ht := hv.2.1
  dsimp only
  nlinarith

/-- `final_score` lies in `[0,1]` for a well-formed venue and a profile
with non-negative category scores. -/
theorem finalScore_bounds (T : TrigModel) (p : UserProfile) (v : Venue)
    (hs : ∀ q ∈ p.category_scores, 0 ≤ q.2)
    (hv : 0 ≤ v.rating ∧ 0 ≤ v.trending_score ∧ 0 ≤ v.capacity) :
    0 ≤ finalScore T p v ∧ finalScore T p v ≤ 1 := by
  unfold finalScore
  refine ⟨le_min (by norm_num) ?_, min_le_left _ _⟩
  have hb := baseScore_nonneg T p v hs hv
  have hi := interestBoost_nonneg p v
  have hc : 0 ≤ categoryBoost p v :=
    mul_nonneg (dictGet_nonneg hs le_rfl) (by norm_num)
  linarith

/-- Fold invariant: every scored tuple produced by the per-venue loop over
well-formed venues has its `final_score` in `[0,1]`. -/
theorem scored_fold_bounds (T : TrigModel) (db : DB) (uid : String) (p : UserProfile)
    (hs : ∀ q ∈ p.category_scores, 0 ≤ q.2) :
    ∀ (venues : List Venue) (acc : List (Venue × ℚ × ℚ × ℚ) × List ReasoningDetail),
      (∀ v ∈ venues, 0 ≤ v.rating ∧ 0 ≤ v.trending_score ∧ 0 ≤ v.capacity) →
      (∀ x ∈ acc.1, 0 ≤ x.2.1 ∧ x.2.1 ≤ 1) →
      ∀ x ∈ (venues.foldl (scoreVenueStep T db uid p) acc).1,
        0 ≤ x.2.1 ∧ x.2.1 ≤ 1 := by
  intro venues
  induction venues with
  | nil => intro acc _ hacc x hx; exact hacc x hx
  | cons v vs ih =>
    intro acc hv hacc x hx
    rw [List.foldl] at hx
    refine ih (scoreVenueStep T db uid p acc v)
      (fun w hw => hv w (List.mem_cons_of_mem v hw)) ?_ x hx
    intro y hy
    rw [scoreVenueStep_fst] at hy
    rcases List.mem_append.mp hy with h | h
    · exact hacc y h
    · have : y = (v, finalScore T p v, interestBoost p v, categoryBoost p v) := by
        simpa using h
      subst this
      exact finalScore_bounds T p v hs (hv v (List.mem_cons_self v vs))

/-- C4: every `(venue, final_score)` pair returned by `recommend_venues`
over a catalog of well-formed venues (`rating ≥ 0`, `trending_score ≥ 0`,
`capacity ≥ 0`, as the data model guarantees) has
`final_score = min(1.0, base + interest_boost + category_boost) ∈ [0,1]`. -/
theorem recommend_venues_scores_unit (T : TrigModel) (st : EngineState) (db : DB)
    (user_id : String) (limit : Nat)
    (hv : ∀ v ∈ db.venues, 0 ≤ v.rating ∧ 0 ≤ v.trending_score ∧ 0 ≤ v.capacity) :
    ∀ recs details, recommend_venues T st db user_id limit = .ok (recs, details) →
      ∀ pr ∈ recs, 0 ≤ pr.2 ∧ pr.2 ≤ 1 := by
  intro recs details h pr hpr
  unfold recommend_venues at h
  cases hbp : build_user_profile db user_id with
  | error e =>
    rw [hbp] at h
    simp [Except.bind] at h
  | ok p =>
    rw [hbp] at h
    simp only [Except.bind, pure, Except.pure, Except.ok.injEq, Prod.mk.injEq] at h
    obtain ⟨rfl, rfl⟩ := h
    have hs : ∀ q ∈ p.category_scores, 0 ≤ q.2 := by
      unfold build_user_profile at hbp
      cases hgu : db.getUser user_id with
      | none => rw [hgu] at hbp; cases hbp
      | some user =>
        rw [hgu] at hbp
        injection hbp with hp
        subst hp
        exact profileOf_scores_nonneg db user_id user
    rcases List.mem_map.mp hpr with ⟨x, hxtake, hxeq⟩
    have hxsorted := List.mem_of_mem_take hxtake
    have hxscored := mem_sortDescBy.mp hxsorted
    have hb := scored_fold_bounds T db user_id p hs db.getAllVenues ([], [])
      hv (by simp) x hxscored
    rw [← hxeq]
    exact hb

/-- Witness for `recommend_venues_scores_unit` at the concrete store
`dbVisit` (whose single venue is well-formed). -/
theorem recommend_venues_scores_unit_witness :
    (∀ v ∈ dbVisit.venues, 0 ≤ v.rating ∧ 0 ≤ v.trending_score ∧ 0 ≤ v.capacity) ∧
    (∀ recs details,
      recommend_venues trigZero trainedState dbVisit "user_000" 10 = .ok (recs, details) →
      ∀ pr ∈ recs, 0 ≤ pr.2 ∧ pr.2 ≤ 1) :=
  ⟨by norm_num [dbVisit, cafeVenue],
   recommend_venues_scores_unit trigZero trainedState dbVisit "user_000" 10
    (by norm_num [dbVisit, cafeVenue])⟩

/-! ### C2 -/

/-- The second component of one scoring step: the venue's reasoning dict
is appended to the accumulator. -/
theorem scoreVenueStep_snd (T : TrigModel) (db : DB) (uid : String) (p : UserProfile)
    (acc : List (Venue × ℚ × ℚ × ℚ) × List ReasoningDetail) (v : Venue) :
    (scoreVenueStep T db uid p acc v).2 = acc.2 ++ [reasoningOf T p v] := rfl

/-- Fold invariant: every reasoning dict produced by the per-venue loop
has no `ml_score` entry. -/
theorem details_fold_ml_none (T : TrigModel) (db : DB) (uid : String) (p : UserProfile) :
    ∀ (venues : List Venue) (acc : List (Venue × ℚ × ℚ × ℚ) × List ReasoningDetail),
      (∀ d ∈ acc.2, d.ml_score = none) →
      ∀ d ∈ (venues.foldl (scoreVenueStep T db uid p) acc).2, d.ml_score = none := by
  intro venues
  induction venues with
  | nil => intro acc hacc d hd; exact hacc d hd
  | cons v vs ih =>
    intro acc hacc d hd
    rw [List.foldl] at hd
    refine ih (scoreVenueStep T db uid p acc v) ?_ d hd
    intro y hy
    rw [scoreVenueStep_snd] at hy
    rcases List.mem_append.mp hy with h | h
    · exact hacc y h
    · have : y = reasoningOf T p v := by simpa using h
      subst this
      rfl

/-- C2 (amended): no matter what engine state is loaded — in particular
even when a trained ranker model is present — every reasoning dict in the
breakdown returned by `recommend_venues` has no `ml_score` entry: the
serving path never consults `self.rank_model` and never writes that key
(the dashboard's `d.get("ml_score")` always reads `None`). -/
theorem recommend_venues_no_ml_score (T : TrigModel) (st : EngineState) (db : DB)
    (user_id : String) (limit : Nat) :
    ∀ recs details, recommend_venues T st db user_id limit = .ok (recs, details) →
      ∀ d ∈ details, d.ml_score = none := by
  intro recs details h d hd
  unfold recommend_venues at h
  cases hbp : build_user_profile db user_id with
  | error e =>
    rw [hbp] at h
    simp [Except.bind] at h
  | ok p =>
    rw [hbp] at h
    simp only [Except.bind, pure, Except.pure, Except.ok.injEq, Prod.mk.injEq] at h
    obtain ⟨rfl, rfl⟩ := h
    have hdm := List.mem_of_mem_take hd
    have hds := mem_sortDescBy.mp hdm
    exact details_fold_ml_none T db user_id p db.getAllVenues ([], []) (by simp) d hds

/-- The reasoning dict of the single venue of `dbVisit` for the profile
with one VISIT, fully evaluated. -/
def cafeDetail : ReasoningDetail :=
  { venue := "Cafe One", rating_component := 4 / 5, distance_component := 1,
    trending_component := 1 / 2, category_component := 2, interest_boost := 0,
    category_boost := 1 / 5, final_score := 1, ml_score := none }

/-- Full evaluation of `recommend_venues` on the concrete store `dbVisit`
with a trained model loaded: the café scores
`min(1, 211/200 + 0 + 1/5) = 1` and the breakdown has no ml_score. -/
theorem recommend_venues_dbVisit_eq :
    recommend_venues trigZero trainedState dbVisit "user_000" 10 =
      .ok ([(cafeVenue, 1)], [cafeDetail]) := by
  unfold recommend_venues
  rw [profile_dbVisit]
  show Except.ok _ = _
  norm_num [DB.getAllVenues, dbVisit, scoreVenueStep, reasoningOf, cafeDetail,
    get_venue_features_eq, calculate_distance_eq, trigZero, finalScore, baseScore,
    interestBoost, categoryBoost, get_venue_features, dictGet, dictHasKey,
    List.lookup, cafeVenue, VenueCategory.value, sortDescBy, insertDescBy,
    Except.bind, pure, Except.pure]

/-- C2 (counterexample to the claim as stated): with a trained model
loaded (`trainedState.rank_model.isSome`), the breakdown returned by
`recommend_venues` on `dbVisit` carries no `ml_score` for its scored
venue. -/
theorem ml_score_counterexample :
    trainedState.rank_model.isSome = true ∧
    (recommend_venues trigZero trainedState dbVisit "user_000" 10).map
        (fun r => r.2.map (fun d => d.ml_score)) = .ok [none] := by
  refine ⟨by norm_num [trainedState], ?_⟩
  rw [recommend_venues_dbVisit_eq]
  rfl

/-- Witness for `recommend_venues_no_ml_score` at the fully evaluated
concrete run. -/
theorem recommend_venues_no_ml_score_witness :
    recommend_venues trigZero trainedState dbVisit "user_000" 10 =
      .ok ([(cafeVenue, 1)], [cafeDetail]) ∧ cafeDetail.ml_score = none :=
  ⟨recommend_venues_dbVisit_eq,
   recommend_venues_no_ml_score trigZero trainedState dbVisit "user_000" 10
    [(cafeVenue, 1)] [cafeDetail] recommend_venues_dbVisit_eq cafeDetail (by simp)⟩

/-! ### C10 -/

/-- A user returned by `get_user` carries the queried id (the SQL lookup
is by `user_id`). -/
theorem getUser_user_id {db : DB} {id : String} {u : User}
    (h : db.getUser id = some u) : u.user_id = id := by
  unfold DB.getUser at h
  have := List.find?_some h
  simpa using this

/-- `>>=` on a success computes the continuation (definitional). -/
theorem except_bind_ok {ε α β : Type} (a : α) (f : α → Except ε β) :
    (Except.ok a >>= f) = f a := rfl

/-- `>>=` on a failure short-circuits (definitional). -/
theorem except_bind_error {ε α β : Type} (e : ε) (f : α → Except ε β) :
    ((Except.error e : Except ε α) >>= f) = .error e := rfl

/-- `<$>` on a success maps the value (definitional). -/
theorem except_map_ok {ε α β : Type} (g : α → β) (a : α) :
    (g <$> (Except.ok a : Except ε α)) = .ok (g a) := rfl

/-- `<$>` on a failure short-circuits (definitional). -/
theorem except_map_error {ε α β : Type} (g : α → β) (e : ε) :
    (g <$> (Except.error e : Except ε α)) = (.error e : Except ε β) := rfl

/-- `pure` is `ok` (definitional). -/
theorem except_pure_eq {ε α : Type} (a : α) : (pure a : Except ε α) = .ok a := rfl

/-- Every element of a successful `mapM` over `Except` is the image of
some element of the input list. -/
theorem mapM_ok_mem {α β : Type} (f : α → Except PyError β) :
    ∀ (l : List α) (l2 : List β), l.mapM f = .ok l2 →
      ∀ y ∈ l2, ∃ x ∈ l, f x = .ok y := by
  intro l
  induction l with
  | nil =>
    intro l2 h y hy
    simp only [List.mapM_nil, except_pure_eq, Except.ok.injEq] at h
    subst h
    cases hy
  | cons a as ih =>
    intro l2 h y hy
    rw [List.mapM_cons] at h
    cases hfa : f a with
    | error e =>
      rw [hfa] at h
      simp [except_bind_error] at h
    | ok b =>
      rw [hfa] at h
      cases hrest : as.mapM f with
      | error e =>
        rw [hrest] at h
        simp [except_bind_ok, except_bind_error, except_map_error] at h
      | ok bs =>
        rw [hrest] at h
        simp only [except_bind_ok, except_bind_error, except_map_ok, except_pure_eq,
          Except.ok.injEq] at h
        subst h
        rcases List.mem_cons.mp hy with rfl | hmem
        · exact ⟨a, List.mem_cons_self _ _, hfa⟩
        · obtain ⟨x, hx, hfx⟩ := ih bs hrest y hmem
          exact ⟨x, List.mem_cons_of_mem _ hx, hfx⟩

/-- Every user collected by the probing loop was found at some index `j`
of the id sequence whose whole prefix `user_000 … user_j` resolves: the
loop stops at the first gap, so nothing beyond the initial consecutive
run is ever collected. -/
theorem mem_collectCandidates (db : DB) (uid : String) (target : User) :
    ∀ (fuel i : Nat) (u : User), u ∈ collectCandidates db uid target fuel i →
      ∃ j, i ≤ j ∧ db.getUser (userIdOf j) = some u ∧
        ∀ k, i ≤ k → k ≤ j → (db.getUser (userIdOf k)).isSome := by
  intro fuel
  induction fuel with
  | zero =>
    intro i u h
    simp [collectCandidates] at h
  | succ fuel ih =>
    intro i u h
    rw [collectCandidates] at h
    cases hgu : db.getUser (userIdOf i) with
    | none =>
      rw [hgu] at h
      cases h
    | some user =>
      rw [hgu] at h
      rcases List.mem_append.mp h with h1 | h2
      · have hu : u = user := by
          by_cases hc : (user.user_id != uid && !(target.blocked_users.contains user.user_id)) = true
          · rw [if_pos hc] at h1
            simpa using h1
          · rw [if_neg hc] at h1
            cases h1
        subst hu
        refine ⟨i, le_rfl, hgu, ?_⟩
        intro k hk1 hk2
        have hk : k = i := le_antisymm hk2 hk1
        subst hk
        simp [hgu]
      · obtain ⟨j, hij, hj, hall⟩ := ih (i + 1) u h2
        refine ⟨j, by omega, hj, ?_⟩
        intro k hk1 hk2
        by_cases hki : k = i
        · subst hki
          simp [hgu]
        · exact hall k (by omega) hk2

/-- C10: every user in the list returned by `recommend_users` was found
at some index `j` of the consecutive zero-padded sequence
`user_000, user_001, …` whose entire prefix up to `j` resolves — a user
whose id is not in that initial consecutive run never appears in the
output, regardless of compatibility score. -/
theorem recommend_users_candidate_run (T : TrigModel) (db : DB) (user_id : String)
    (limit : Nat) :
    ∀ res, recommend_users T db user_id limit = .ok res →
      ∀ pr ∈ res, ∃ j, pr.1.user_id = userIdOf j ∧
        ∀ k, k ≤ j → (db.getUser (userIdOf k)).isSome := by
  intro res h pr hpr
  unfold recommend_users at h
  cases hgu : db.getUser user_id with
  | none =>
    rw [hgu] at h
    cases h
  | some target =>
    rw [hgu] at h
    dsimp only at h
    cases hm : (collectCandidates db user_id target (db.users.length + 1) 0).mapM
        (scoreCandidate T db (profileOf db user_id target)) with
    | error e =>
      rw [hm] at h
      simp [except_bind_error] at h
    | ok scored =>
      rw [hm] at h
      simp only [except_bind_ok, except_pure_eq, Except.ok.injEq] at h
      subst h
      have hmem := mem_sortDescBy.mp (List.mem_of_mem_take hpr)
      obtain ⟨cand, hcand, hf⟩ := mapM_ok_mem _ _ _ hm pr hmem
      have hpr1 : pr.1 = cand := by
        unfold scoreCandidate at hf
        cases hbp : build_user_profile db cand.user_id with
        | error e => rw [hbp] at hf; simp [except_bind_error] at hf
        | ok op =>
          rw [hbp] at hf
          simp only [except_bind_ok, except_pure_eq, Except.ok.injEq] at hf
          rw [← hf]
      obtain ⟨j, _, hj, hall⟩ := mem_collectCandidates db user_id target _ 0 cand hcand
      refine ⟨j, ?_, fun k hk => hall k (Nat.zero_le k) hk⟩
      rw [hpr1]
      exact getUser_user_id hj

/-- A second concrete user, stored under the consecutive id `user_001`. -/
def bobUser : User :=
  { user_id := "user_001", location := (0, 0), interests := [], blocked_users := [] }

/-- A store with two users (ids `user_000` and `user_001`) and nothing else. -/
def dbTwoUsers : DB :=
  { users := [aliceUser, bobUser], venues := [], interactions := [], bookings := [] }

/-- Full evaluation of `recommend_users` on `dbTwoUsers`: the probing loop
finds `user_000` (the requester, skipped) and `user_001`, stops at
`user_002`, and Bob scores `0·0.4 + 0·0.35 + 1·0.25 = 1/4`. -/
theorem recommend_users_dbTwoUsers_eq :
    recommend_users trigZero dbTwoUsers "user_000" 5 = .ok [(bobUser, 1 / 4)] := by
  have hcompat : compatibilityScore trigZero (profileOf dbTwoUsers "user_000" aliceUser)
      (profileOf dbTwoUsers "user_001" bobUser) = 1 / 4 := by
    norm_num [compatibilityScore_eq, interestOverlap, categoryOverlap, pyInterCard,
      pyUnionCard, dictKeys, List.dedup, calculate_distance_eq, trigZero, profileOf,
      dbTwoUsers, DB.getUserInteractions, List.filter, aliceUser, bobUser]
  unfold recommend_users
  rw [show dbTwoUsers.getUser "user_000" = some aliceUser from rfl]
  dsimp only
  rw [show collectCandidates dbTwoUsers "user_000" aliceUser (dbTwoUsers.users.length + 1) 0
      = [bobUser] from rfl]
  rw [List.mapM_cons, List.mapM_nil]
  rw [show scoreCandidate trigZero dbTwoUsers (profileOf dbTwoUsers "user_000" aliceUser)
        bobUser =
      .ok (bobUser, compatibilityScore trigZero (profileOf dbTwoUsers "user_000" aliceUser)
        (profileOf dbTwoUsers "user_001" bobUser)) from rfl]
  rw [hcompat]
  rfl

/-- Witness for `recommend_users_candidate_run` at the concrete two-user
store: Bob appears in the output, and his id sits at index 1 of the
consecutive run `user_000, user_001`. -/
theorem recommend_users_candidate_run_witness :
    recommend_users trigZero dbTwoUsers "user_000" 5 = .ok [(bobUser, 1 / 4)] ∧
    ∃ j, (bobUser, (1 : ℚ) / 4).1.user_id = userIdOf j ∧
      ∀ k, k ≤ j → (dbTwoUsers.getUser (userIdOf k)).isSome :=
  ⟨recommend_users_dbTwoUsers_eq,
   recommend_users_candidate_run trigZero dbTwoUsers "user_000" 5 [(bobUser, 1 / 4)]
    recommend_users_dbTwoUsers_eq (bobUser, 1 / 4) (by simp)⟩

end Luna
